import Mathlib

/-!
Shallow embedding of `src/didit_aml/log/__init__.py` (the `LokiFormatter`
structured log formatter) and proofs about its behaviour.

Conventions of the embedding:
* Python values that can appear as log-record attributes or JSON-record
  values are modelled by the inductive type `Value`.
* A `logging.LogRecord` is modelled by its `__dict__`: an association list
  from attribute names to values (Python stores every standard attribute,
  `name`, `msg`, `args`, `levelname`, ..., in the instance dictionary).
* Python exceptions are modelled by `PyError` (kind + message); fallible
  Python code becomes `Except PyError _`.
* The JSON backend modelled is the standard-library `json` module (the
  guaranteed import fallback in the source); `dumps` and its `default=`
  hook are embedded as executable functions.
-/

/-- A naive `datetime.datetime` value (no timezone, as the source never
attaches one). -/
structure DateTime where
  year : Nat
  month : Nat
  day : Nat
  hour : Nat
  minute : Nat
  second : Nat
  microsecond : Nat
deriving DecidableEq, Repr

/-- Zero-pad a numeral to two digits, as `datetime.isoformat` does. -/
def pad2 (n : Nat) : String :=
  if n < 10 then "0" ++ toString n else toString n

/-- Zero-pad a numeral to four digits (year field). -/
def pad4 (n : Nat) : String :=
  if n < 10 then "000" ++ toString n
  else if n < 100 then "00" ++ toString n
  else if n < 1000 then "0" ++ toString n
  else toString n

/-- Zero-pad a numeral to six digits (microsecond field). -/
def pad6 (n : Nat) : String :=
  let s := toString n
  String.mk (List.replicate (6 - s.length) (Char.ofNat 48)) ++ s

/-- `datetime.isoformat()`: `YYYY-MM-DDTHH:MM:SS[.ffffff]`. -/
def DateTime.isoformat (d : DateTime) : String :=
  pad4 d.year ++ "-" ++ pad2 d.month ++ "-" ++ pad2 d.day ++ "T" ++
    pad2 d.hour ++ ":" ++ pad2 d.minute ++ ":" ++ pad2 d.second ++
    (if d.microsecond = 0 then "" else "." ++ pad6 d.microsecond)

/-- `str(datetime)`: same as `isoformat` but with a space separator. -/
def DateTime.pyStr (d : DateTime) : String :=
  pad4 d.year ++ "-" ++ pad2 d.month ++ "-" ++ pad2 d.day ++ " " ++
    pad2 d.hour ++ ":" ++ pad2 d.minute ++ ":" ++ pad2 d.second ++
    (if d.microsecond = 0 then "" else "." ++ pad6 d.microsecond)

/-- Python values that can occur as log-record attributes or inside the
JSON record.  `vObj od s` is a custom object whose `__dict__` is `od`
(`none` when the object has no `__dict__`) and whose `str()` is `s`.
`vExc t m` is an `exc_info` triple for an exception of type `t` with
message `m`.  `vCircular` is a container holding a reference to itself:
the JSON encoder detects the cycle and raises `ValueError` on it, with or
without a `default` hook. -/
inductive Value where
  | vNull : Value
  | vBool : Bool → Value
  | vInt : Int → Value
  | vStr : String → Value
  | vDatetime : DateTime → Value
  | vList : List Value → Value
  | vDict : List (String × Value) → Value
  | vObj : Option (List (String × Value)) → String → Value
  | vExc : String → String → Value
  | vCircular : Value

/-- Python truthiness for the values above. -/
def truthy : Value → Bool
  | .vNull => false
  | .vBool b => b
  | .vInt n => n != 0
  | .vStr s => s ≠ ""
  | .vDatetime _ => true
  | .vList xs => !xs.isEmpty
  | .vDict fs => !fs.isEmpty
  | .vObj _ _ => true
  | .vExc _ _ => true
  | .vCircular => true

/-- `repr` of a string: quoted, preferring single quotes as CPython does
(double quotes when the text holds a single quote and no double quote).
Backslashes and the chosen quote are escaped; other escapes are elided. -/
def pyReprStr (s : String) : String :=
  let esc : Char → String := fun c =>
    if c = Char.ofNat 92 then "\\\\" else String.singleton c
  let body : String := String.join (s.data.map esc)
  if s.contains (Char.ofNat 39) && !s.contains (Char.ofNat 34) then
    "\"" ++ body ++ "\""
  else
    "\x27" ++ String.join (body.data.map (fun c =>
      if c = Char.ofNat 39 then "\\\x27" else String.singleton c)) ++ "\x27"

mutual
/-- `repr` of a value.  Custom objects carry their printed form in the
model (the real default form embeds a memory address); the self-referential
container prints as CPython prints a list holding itself. -/
def pyRepr : Value → String
  | .vNull => "None"
  | .vBool true => "True"
  | .vBool false => "False"
  | .vInt n => toString n
  | .vStr s => pyReprStr s
  | .vDatetime d =>
      "datetime.datetime(" ++ toString d.year ++ ", " ++ toString d.month ++
        ", " ++ toString d.day ++ ", " ++ toString d.hour ++ ", " ++
        toString d.minute ++ ", " ++ toString d.second ++
        (if d.microsecond = 0 then "" else ", " ++ toString d.microsecond) ++ ")"
  | .vList xs => "[" ++ String.intercalate ", " (pyReprList xs) ++ "]"
  | .vDict fs => "\x7b" ++ String.intercalate ", " (pyReprFields fs) ++ "\x7d"
  | .vObj _ s => s
  | .vExc t m =>
      "(<class \x27" ++ t ++ "\x27>, " ++ t ++ "(" ++ pyReprStr m ++
        "), <traceback object>)"
  | .vCircular => "[[...]]"

def pyReprList : List Value → List String
  | [] => []
  | v :: vs => pyRepr v :: pyReprList vs

def pyReprFields : List (String × Value) → List String
  | [] => []
  | (k, v) :: rest => (pyReprStr k ++ ": " ++ pyRepr v) :: pyReprFields rest
end

/-- `str` of a value (differs from `repr` only on strings and objects with
a dedicated `__str__`, i.e. `datetime`). -/
def pyStr : Value → String
  | .vStr s => s
  | .vDatetime d => d.pyStr
  | v => pyRepr v

/-- Kinds of Python exceptions this embedding can raise. -/
inductive ErrKind where
  | typeError
  | valueError
  | overflowError
  | attributeError
deriving DecidableEq, Repr

/-- A Python exception: kind plus message; `str(e)` is the message. -/
structure PyError where
  kind : ErrKind
  msg : String
deriving DecidableEq, Repr

/-- The `AttributeError` CPython raises for a missing instance attribute. -/
def attributeErr (obj attr : String) : PyError :=
  ⟨.attributeError,
    "\x27" ++ obj ++ "\x27 object has no attribute \x27" ++ attr ++ "\x27"⟩

/-- A JSON record: a Python `dict` from field names to values, modelled as
an association list in insertion order. -/
abbrev JsonRecord := List (String × Value)

/-- Python `d[key]` lookup (first match; real dicts have unique keys). -/
def lookupKey : JsonRecord → String → Option Value
  | [], _ => none
  | (k, v) :: rest, key => if k = key then some v else lookupKey rest key

/-- Python dict assignment `d[key] = v`: replaces the value in place when
the key is present (keeping its position), appends otherwise. -/
def setKey : JsonRecord → String → Value → JsonRecord
  | [], key, v => [(key, v)]
  | (k, w) :: rest, key, v =>
      if k = key then (k, v) :: rest else (k, w) :: setKey rest key v

/-- The `BUILTIN_ATTRS` set from the source, verbatim. -/
def BUILTIN_ATTRS : List String :=
  [ "args",
    "asctime",
    "created",
    "exc_info",
    "exc_text",
    "filename",
    "funcName",
    "levelname",
    "levelno",
    "lineno",
    "module",
    "msecs",
    "message",
    "msg",
    "name",
    "pathname",
    "process",
    "processName",
    "relativeCreated",
    "stack_info",
    "thread",
    "threadName" ]

/-- A `logging.LogRecord`, modelled by its `__dict__` (CPython stores every
standard attribute, `name`, `msg`, `args`, `levelname`, ..., there). -/
structure LogRecord where
  dict : List (String × Value)

/-- Attribute access `record.attr`: instance `__dict__` lookup, raising
`AttributeError` when the name is absent (no relevant class attributes
exist on `LogRecord`). -/
def getattr (r : LogRecord) (attr : String) : Except PyError Value :=
  match lookupKey r.dict attr with
  | some v => .ok v
  | none => .error (attributeErr "LogRecord" attr)

/-- The argument tuple of `msg % args`: a tuple formats element-wise, any
other single value formats as a one-element tuple. -/
def argsOf : Value → List Value
  | .vList xs => xs
  | v => [v]

/-- `template % args` for the `%s` and `%%` conversions, following CPython:
each `%s` consumes one argument and inserts `str(arg)`; too few arguments
or leftover arguments raise `TypeError`; an unsupported or incomplete
conversion raises `ValueError` (messages abbreviated). -/
def renderPercent : List Char → List Value → Except PyError String
  | [], [] => .ok ""
  | [], _ :: _ =>
      .error ⟨.typeError, "not all arguments converted during string formatting"⟩
  | '%' :: 's' :: rest, a :: args => do
      let tail ← renderPercent rest args
      return pyStr a ++ tail
  | '%' :: 's' :: _, [] =>
      .error ⟨.typeError, "not enough arguments for format string"⟩
  | '%' :: '%' :: rest, args => do
      let tail ← renderPercent rest args
      return "%" ++ tail
  | ['%'], _ => .error ⟨.valueError, "incomplete format"⟩
  | '%' :: c :: _, _ =>
      .error ⟨.valueError,
        "unsupported format character \x27" ++ String.singleton c ++ "\x27"⟩
  | c :: rest, args => do
      let tail ← renderPercent rest args
      return String.singleton c ++ tail

/-- `LogRecord.getMessage` (standard library behaviour the formatter calls):
`msg = str(self.msg); if self.args: msg = msg % self.args`. -/
def LogRecord.getMessage (r : LogRecord) : Except PyError String := do
  let m ← getattr r "msg"
  let a ← getattr r "args"
  let msg := pyStr m
  if truthy a then
    renderPercent msg.data (argsOf a)
  else
    return msg

/-- `LokiFormatter.extra_from_record`: the fresh dict of all `__dict__`
entries whose key is not in `BUILTIN_ATTRS`. -/
def extra_from_record (r : LogRecord) : JsonRecord :=
  r.dict.filter (fun p => !(BUILTIN_ATTRS.contains p.1))

/-- Model of `logging.Formatter.formatException` (standard library, outside
this repository): renders the `exc_info` triple to the traceback text,
which for a genuine exception starts with the traceback header and ends
with `type: message`. -/
def formatException (ei : Value) : String :=
  match ei with
  | .vExc t m => "Traceback (most recent call last):\n" ++ t ++ ": " ++ m
  | v => pyStr v

/-- `LokiFormatter.json_record`, line for line.  Note the source reads
`record.levelname_` (with a trailing underscore) for the `level` field. -/
def json_record (message : String) (extra : JsonRecord) (r : LogRecord) :
    Except PyError JsonRecord := do
  let e1 := setKey extra "message" (.vStr message)
  let lvl ← getattr r "levelname_"
  let e2 := setKey e1 "level" lvl
  let nm ← getattr r "name"
  let e3 := setKey e2 "name" nm
  let ei ← getattr r "exc_info"
  let e4 := if truthy ei then setKey e3 "exc_info" (.vStr (formatException ei)) else e3
  let fn ← getattr r "filename"
  let e5 := setKey e4 "filename" fn
  let fu ← getattr r "funcName"
  let e6 := setKey e5 "func_name" fu
  let ln ← getattr r "lineno"
  let e7 := setKey e6 "lineno" ln
  let mo ← getattr r "module"
  let e8 := setKey e7 "module" mo
  let pa ← getattr r "pathname"
  return setKey e8 "pathname" pa

/-- `LokiFormatter.mutate_json_record`: replace each `datetime` value by
its `isoformat()` string, leave everything else in place, return the
record.  (The source's in-place loop over a dict with unique keys is this
entrywise map.) -/
def mutate_json_record : JsonRecord → JsonRecord
  | [] => []
  | (k, Value.vDatetime d) :: rest =>
      (k, .vStr d.isoformat) :: mutate_json_record rest
  | (k, v) :: rest => (k, v) :: mutate_json_record rest

/-- Lowercase four-digit hex, as in `\uXXXX` escapes. -/
def hex4 (n : Nat) : String :=
  let s := (Nat.toDigits 16 n).asString
  String.mk (List.replicate (4 - s.length) (Char.ofNat 48)) ++ s

/-- Character escaping of `json.dumps` with its default `ensure_ascii=True`. -/
def jsonEscapeChar (c : Char) : String :=
  if c = '"' then "\\\""
  else if c = '\\' then "\\\\"
  else if c = Char.ofNat 8 then "\\b"
  else if c = Char.ofNat 9 then "\\t"
  else if c = Char.ofNat 10 then "\\n"
  else if c = Char.ofNat 12 then "\\f"
  else if c = Char.ofNat 13 then "\\r"
  else if c.toNat < 32 then "\\u" ++ hex4 c.toNat
  else if c.toNat < 127 then String.singleton c
  else if c.toNat < 65536 then "\\u" ++ hex4 c.toNat
  else
    let n := c.toNat - 65536
    "\\u" ++ hex4 (55296 + n / 1024) ++ "\\u" ++ hex4 (56320 + n % 1024)

/-- A JSON string literal as `json.dumps` emits it. -/
def jsonQuote (s : String) : String :=
  "\"" ++ String.join (s.data.map jsonEscapeChar) ++ "\""

/-- The object's `__dict__`, when it has one (custom objects do; `dict`,
`datetime`, tuples and the standard scalars do not). -/
def objDict : Value → Option (List (String × Value))
  | .vObj (some d) _ => some d
  | _ => none

/-- The module-level `_json_serializable` from the source:
`try: return obj.__dict__ except AttributeError: return str(obj)`. -/
def _json_serializable (obj : Value) : Value :=
  match objDict obj with
  | some d => .vDict d
  | none => .vStr (pyStr obj)

mutual
/-- `json.dumps` on one value (standard-library backend, default
separators).  `useDefault` says whether `default=_json_serializable` was
passed; when it is, a non-native value is encoded as its `__dict__` when
it has one and as its `str()` otherwise — `dumpsVal` inlines
`_json_serializable` case by case.  The `exc_info` triple is modelled as
rejected (encoding its traceback member would embed a memory address; the
formatter never serializes one, since `exc_info` is a builtin attribute
that `json_record` replaces by its formatted text).  The self-referential
container raises `ValueError` with or without the default hook, exactly as
CPython's cycle detection does. -/
def dumpsVal (useDefault : Bool) : Value → Except PyError String
  | .vNull => .ok "null"
  | .vBool true => .ok "true"
  | .vBool false => .ok "false"
  | .vInt n => .ok (toString n)
  | .vStr s => .ok (jsonQuote s)
  | .vList xs => do
      let parts ← dumpsList useDefault xs
      return "[" ++ String.intercalate ", " parts ++ "]"
  | .vDict fs => do
      let parts ← dumpsFields useDefault fs
      return "\x7b" ++ String.intercalate ", " parts ++ "\x7d"
  | .vDatetime d =>
      if useDefault then .ok (jsonQuote (DateTime.pyStr d))
      else .error ⟨.typeError, "Object of type datetime is not JSON serializable"⟩
  | .vObj (some d) _ =>
      if useDefault then do
        let parts ← dumpsFields useDefault d
        return "\x7b" ++ String.intercalate ", " parts ++ "\x7d"
      else .error ⟨.typeError, "Object of type object is not JSON serializable"⟩
  | .vObj none s =>
      if useDefault then .ok (jsonQuote s)
      else .error ⟨.typeError, "Object of type object is not JSON serializable"⟩
  | .vExc _ _ =>
      .error ⟨.typeError, "Object of type type is not JSON serializable"⟩
  | .vCircular => .error ⟨.valueError, "Circular reference detected"⟩

def dumpsList (useDefault : Bool) : List Value → Except PyError (List String)
  | [] => .ok []
  | v :: vs => do
      let s ← dumpsVal useDefault v
      let tail ← dumpsList useDefault vs
      return s :: tail

def dumpsFields (useDefault : Bool) :
    List (String × Value) → Except PyError (List String)
  | [] => .ok []
  | (k, v) :: rest => do
      let s ← dumpsVal useDefault v
      let tail ← dumpsFields useDefault rest
      return (jsonQuote k ++ ": " ++ s) :: tail
end

/-- `json_lib.dumps(record, default=_json_serializable)`. -/
def dumpsDefault (record : JsonRecord) : Except PyError String :=
  dumpsVal true (.vDict record)

/-- `json_lib.dumps(record)`. -/
def dumpsPlain (record : JsonRecord) : Except PyError String :=
  dumpsVal false (.vDict record)

/-- `LokiFormatter.to_json`: try with the default hook, retry without it,
fall back to the empty-object literal.  The source catches exactly
`(TypeError, ValueError, OverflowError)`; the embedded encoder only raises
errors of those kinds, so both catches are total here. -/
def to_json (record : JsonRecord) : String :=
  match dumpsDefault record with
  | .ok s => s
  | .error _ =>
    match dumpsPlain record with
    | .ok s => s
    | .error _ => "\x7b\x7d"

/-- A `mutate_json_record` override.  A Python hook may mutate the record
in place and may return `None`; `run` returns the pair of the returned
value (`none` models a `None` return) and the state of the argument after
the call. -/
structure MutationHook where
  run : JsonRecord → Option JsonRecord × JsonRecord

/-- The default hook: `mutate_json_record` mutates in place and returns
the record, so both components are the mutated record. -/
def defaultHook : MutationHook :=
  ⟨fun jr => (some (mutate_json_record jr), mutate_json_record jr)⟩

/-- The f-string fallback in `LokiFormatter.format`'s `except` clause. -/
def fallbackRecord (e : PyError) : String :=
  "\x7b\"level\": \"ERROR\", \"name\": \"didit_aml.log.LokiFormatter\", \"message\": \""
    ++ e.msg ++ "\"\x7d"

/-- The `try` block of `LokiFormatter.format`, with the mutation hook kept
abstract (subclasses may override it).  `if mutated_record is None:
mutated_record = json_record` reads the post-call state of the record
object the hook received. -/
def formatBodyWith (h : MutationHook) (r : LogRecord) : Except PyError String :=
  match r.getMessage with
  | .error e => .error e
  | .ok message =>
    match json_record message (extra_from_record r) r with
    | .error e => .error e
    | .ok jr =>
      let (ret, stateAfter) := h.run jr
      let mutated := match ret with
        | some m => m
        | none => stateAfter
      .ok (to_json mutated)

/-- `LokiFormatter.format` with the mutation hook kept abstract. -/
def formatWith (h : MutationHook) (r : LogRecord) : String :=
  match formatBodyWith h r with
  | .ok s => s
  | .error e => fallbackRecord e

/-- `LokiFormatter.format` as shipped (default mutation hook). -/
def format (r : LogRecord) : String :=
  formatWith defaultHook r

/-- The value coercion `mutate_json_record` performs on each entry. -/
def coerceValue : Value → Value
  | .vDatetime d => .vStr d.isoformat
  | v => v

/-- Whether a value is a `datetime`. -/
def isDatetimeV : Value → Bool
  | .vDatetime _ => true
  | _ => false

/-! ### Helper lemmas about the dict model -/

theorem lookupKey_setKey_self (m : JsonRecord) (k : String) (v : Value) :
    lookupKey (setKey m k v) k = some v := by
  induction m with
  | nil => simp [setKey, lookupKey]
  | cons p rest ih =>
    obtain ⟨k0, v0⟩ := p
    by_cases hk : k0 = k
    · simp [setKey, hk, lookupKey]
    · simp [setKey, hk, lookupKey, ih]

theorem lookupKey_setKey_ne (m : JsonRecord) (k key : String) (v : Value)
    (h : key ≠ k) : lookupKey (setKey m k v) key = lookupKey m key := by
  induction m with
  | nil => simp [setKey, lookupKey, Ne.symm h]
  | cons p rest ih =>
    obtain ⟨k0, v0⟩ := p
    by_cases hk : k0 = k
    · subst hk
      simp [setKey, lookupKey, Ne.symm h]
    · simp [setKey, hk, lookupKey, ih]

theorem mem_keys_setKey (m : JsonRecord) (k a : String) (v : Value) :
    a ∈ (setKey m k v).map Prod.fst ↔ a ∈ m.map Prod.fst ∨ a = k := by
  induction m with
  | nil => simp [setKey]
  | cons p rest ih =>
    obtain ⟨k0, v0⟩ := p
    by_cases hk : k0 = k
    · subst hk
      simp [setKey]
      tauto
    · simp [setKey, hk, ih]
      tauto

theorem nodup_keys_setKey (m : JsonRecord) (k : String) (v : Value)
    (h : (m.map Prod.fst).Nodup) : ((setKey m k v).map Prod.fst).Nodup := by
  induction m with
  | nil => simp [setKey]
  | cons p rest ih =>
    obtain ⟨k0, v0⟩ := p
    simp only [List.map_cons, List.nodup_cons] at h
    by_cases hk : k0 = k
    · subst hk
      simpa [setKey, List.nodup_cons] using h
    · simp only [setKey, if_neg hk, List.map_cons, List.nodup_cons]
      refine ⟨?_, ih h.2⟩
      rw [mem_keys_setKey]
      rintro (hmem | hmem)
      · exact h.1 hmem
      · exact hk hmem

theorem mutate_json_record_cons (k : String) (v : Value) (rest : JsonRecord) :
    mutate_json_record ((k, v) :: rest) =
      (k, coerceValue v) :: mutate_json_record rest := by
  cases v <;> rfl

theorem to_json_cases (jr : JsonRecord) :
    dumpsDefault jr = .ok (to_json jr) ∨
    dumpsPlain jr = .ok (to_json jr) ∨
    to_json jr = "\x7b\x7d" := by
  cases hd : dumpsDefault jr with
  | ok s => exact Or.inl (by simp [to_json, hd])
  | error e =>
    cases hp : dumpsPlain jr with
    | ok s => exact Or.inr (Or.inl (by simp [to_json, hd, hp]))
    | error e2 => exact Or.inr (Or.inr (by simp [to_json, hd, hp]))

/-! ### Concrete records used as witnesses and failing inputs -/

/-- The `__dict__` a CPython `LogRecord` starts with (attribute insertion
order of `LogRecord.__init__`), for an INFO event at a fixed call site. -/
def stdAttrs (msg : String) (args : List Value) (excInfo : Value) :
    List (String × Value) :=
  [ ("name", .vStr "myapp"),
    ("msg", .vStr msg),
    ("args", .vList args),
    ("levelname", .vStr "INFO"),
    ("levelno", .vInt 20),
    ("pathname", .vStr "/app/myapp/views.py"),
    ("filename", .vStr "views.py"),
    ("module", .vStr "views"),
    ("exc_info", excInfo),
    ("exc_text", .vNull),
    ("stack_info", .vNull),
    ("lineno", .vInt 42),
    ("funcName", .vStr "login"),
    ("created", .vInt 1700000000),
    ("msecs", .vInt 123),
    ("relativeCreated", .vInt 5),
    ("thread", .vInt 140000),
    ("threadName", .vStr "MainThread"),
    ("processName", .vStr "MainProcess"),
    ("process", .vInt 4242) ]

/-- The spec scenario: template `user %s logged in`, argument `alice`,
level INFO, extra field `request_id = "abc123"`. -/
def scenarioRecord : LogRecord :=
  ⟨stdAttrs "user %s logged in" [.vStr "alice"] .vNull ++
    [("request_id", .vStr "abc123")]⟩

/-- An event whose extra field holds a self-referential container. -/
def circularRecord : LogRecord :=
  ⟨stdAttrs "boom" [] .vNull ++ [("payload", .vCircular)]⟩

/-- An event carrying exception info. -/
def excRecord : LogRecord :=
  ⟨stdAttrs "failed" [] (.vExc "ValueError" "boom")⟩

/-- An event with only built-in attributes set. -/
def builtinOnlyRecord : LogRecord :=
  ⟨stdAttrs "hi" [] .vNull⟩

/-- A record that, unusually, carries a caller extra named `levelname_` —
the one shape of event on which `json_record` can complete — plus an extra
that collides with the fixed field `level`. -/
def collideRecord : LogRecord :=
  ⟨stdAttrs "hello" [] .vNull ++
    [("level", .vStr "smuggled"), ("levelname_", .vStr "INFO")]⟩

/-- A minimal record holding exactly the attributes `format` touches,
including the `levelname_` extra that lets `json_record` complete. -/
def tinyRecord : LogRecord :=
  ⟨[ ("name", .vStr "n"),
     ("msg", .vStr "m"),
     ("args", .vList []),
     ("levelname_", .vStr "INFO"),
     ("exc_info", .vNull),
     ("filename", .vStr "f"),
     ("funcName", .vStr "g"),
     ("lineno", .vInt 1),
     ("module", .vStr "mo"),
     ("pathname", .vStr "p") ]⟩

/-! ### The claims -/

/-- C5: `extra_from_record` returns exactly the event attributes whose key
is not in `BUILTIN_ATTRS`, and is empty for an event carrying only
built-in attributes.  (Freshness — "not an alias" — is automatic in this
pure embedding: `json_record`'s writes to the returned list cannot change
`r.dict`.) -/
theorem extra_from_record_exactly_non_builtin (r : LogRecord) :
    (∀ k v, (k, v) ∈ extra_from_record r ↔
      ((k, v) ∈ r.dict ∧ k ∉ BUILTIN_ATTRS)) ∧
    ((∀ p ∈ r.dict, p.1 ∈ BUILTIN_ATTRS) → extra_from_record r = []) := by
  constructor
  · intro k v
    simp [extra_from_record, List.mem_filter, List.elem_iff]
  · intro hall
    rw [extra_from_record, List.filter_eq_nil_iff]
    intro p hp
    simp [List.elem_iff]
    exact hall p hp

/-- Witness for C5 at a concrete event with only built-in attributes. -/
theorem extra_from_record_exactly_non_builtin_witness :
    extra_from_record builtinOnlyRecord = [] :=
  (extra_from_record_exactly_non_builtin builtinOnlyRecord).2 (by decide)

/-- C8: the default mutation hook maps each entry in place, replacing a
`datetime` value by its ISO-8601 string and leaving every key and every
non-`datetime` value unchanged. -/
theorem mutate_json_record_pointwise (jr : JsonRecord) :
    (mutate_json_record jr).length = jr.length ∧
    ∀ i : Nat, (mutate_json_record jr)[i]? =
      jr[i]?.map (fun p => (p.1, coerceValue p.2)) := by
  induction jr with
  | nil => exact ⟨rfl, fun i => by cases i <;> rfl⟩
  | cons p rest ih =>
    obtain ⟨k, v⟩ := p
    rw [mutate_json_record_cons]
    refine ⟨by simpa using ih.1, fun i => ?_⟩
    cases i with
    | zero => simp
    | succ n => simpa using ih.2 n

/-- C9: on a record with no remaining `datetime` values (e.g. one already
coerced), the default mutation hook is the identity. -/
theorem mutate_json_record_noop (jr : JsonRecord)
    (h : ∀ p ∈ jr, isDatetimeV p.2 = false) :
    mutate_json_record jr = jr := by
  induction jr with
  | nil => rfl
  | cons p rest ih =>
    obtain ⟨k, v⟩ := p
    rw [mutate_json_record_cons]
    have hv : isDatetimeV v = false := h (k, v) (by simp)
    have hc : coerceValue v = v := by
      cases v <;> simp_all [isDatetimeV, coerceValue]
    rw [hc, ih (fun q hq => h q (by simp [hq]))]

/-- Witness for C9 at a concrete already-coerced record. -/
theorem mutate_json_record_noop_witness :
    mutate_json_record
      [("message", .vStr "hi"), ("t", .vStr "2024-01-02T03:04:05"),
       ("lineno", .vInt 42)] =
      [("message", .vStr "hi"), ("t", .vStr "2024-01-02T03:04:05"),
       ("lineno", .vInt 42)] :=
  mutate_json_record_noop _ (by
    intro p hp
    simp only [List.mem_cons, List.not_mem_nil, or_false] at hp
    rcases hp with rfl | rfl | rfl <;> rfl)

theorem lookupKey_setKey (m : JsonRecord) (k key : String) (v : Value) :
    lookupKey (setKey m k v) key =
      if key = k then some v else lookupKey m key := by
  by_cases h : key = k
  · subst h; simp [lookupKey_setKey_self]
  · simp [h, lookupKey_setKey_ne _ _ _ _ h]

/-- C6: in the record `json_record` assembles, the fixed fields are
written after the extras, so for each fixed key the fixed value is what
the final record holds (last write wins), whatever the extras contained,
and key uniqueness is preserved. -/
theorem json_record_fixed_fields_override
    (msg_ : String) (extra : JsonRecord) (r : LogRecord)
    (lvl nm ei fn fu ln mo pa : Value)
    (hl : getattr r "levelname_" = .ok lvl)
    (hn : getattr r "name" = .ok nm)
    (he : getattr r "exc_info" = .ok ei)
    (hf : getattr r "filename" = .ok fn)
    (hu : getattr r "funcName" = .ok fu)
    (hi : getattr r "lineno" = .ok ln)
    (hm : getattr r "module" = .ok mo)
    (hp : getattr r "pathname" = .ok pa) :
    ∃ out, json_record msg_ extra r = .ok out ∧
      lookupKey out "message" = some (.vStr msg_) ∧
      lookupKey out "level" = some lvl ∧
      lookupKey out "name" = some nm ∧
      (truthy ei = true →
        lookupKey out "exc_info" = some (.vStr (formatException ei))) ∧
      lookupKey out "filename" = some fn ∧
      lookupKey out "func_name" = some fu ∧
      lookupKey out "lineno" = some ln ∧
      lookupKey out "module" = some mo ∧
      lookupKey out "pathname" = some pa ∧
      ((extra.map Prod.fst).Nodup → (out.map Prod.fst).Nodup) := by
  rw [json_record, hl, hn, he, hf, hu, hi, hm, hp]
  refine ⟨_, rfl, ?_, ?_, ?_, ?_, ?_, ?_, ?_, ?_, ?_, ?_⟩
  · by_cases ht : truthy ei <;> simp [ht, lookupKey_setKey]
  · by_cases ht : truthy ei <;> simp [ht, lookupKey_setKey]
  · by_cases ht : truthy ei <;> simp [ht, lookupKey_setKey]
  · intro ht
    simp [ht, lookupKey_setKey]
  · by_cases ht : truthy ei <;> simp [ht, lookupKey_setKey]
  · by_cases ht : truthy ei <;> simp [ht, lookupKey_setKey]
  · by_cases ht : truthy ei <;> simp [ht, lookupKey_setKey]
  · by_cases ht : truthy ei <;> simp [ht, lookupKey_setKey]
  · simp [lookupKey_setKey]
  · intro hnd
    by_cases ht : truthy ei <;>
      simp only [ht, if_true, if_false, Bool.false_eq_true] <;>
      (repeat apply nodup_keys_setKey) <;> exact hnd

/-- Witness for C6: a caller extra `level = "smuggled"` is overwritten by
the fixed `level` write (which, in this code, copies the `levelname_`
attribute). -/
theorem json_record_fixed_fields_override_witness :
    ∃ out, json_record "hello" [("level", Value.vStr "smuggled")]
        collideRecord = .ok out ∧
      lookupKey out "level" = some (Value.vStr "INFO") := by
  obtain ⟨out, hok, hmsg, hlvl, hrest⟩ :=
    json_record_fixed_fields_override "hello"
      [("level", Value.vStr "smuggled")] collideRecord
      (.vStr "INFO") (.vStr "myapp") .vNull (.vStr "views.py")
      (.vStr "login") (.vInt 42) (.vStr "views")
      (.vStr "/app/myapp/views.py") rfl rfl rfl rfl rfl rfl rfl rfl
  exact ⟨out, hok, hlvl⟩

/-- C10: when the mutation hook mutates in place and returns `None`,
`format` serializes the hook's mutated record, never the pre-mutation one. -/
theorem format_uses_inplace_mutation (h : MutationHook) (r : LogRecord)
    (msg_ : String) (jr mutSt : JsonRecord)
    (hm : r.getMessage = .ok msg_)
    (hj : json_record msg_ (extra_from_record r) r = .ok jr)
    (hh : h.run jr = (none, mutSt)) :
    formatWith h r = to_json mutSt := by
  simp [formatWith, formatBodyWith, hm, hj, hh]

/-- A hook that mutates its argument into `[("k", 1)]` and returns `None`. -/
def w10Hook : MutationHook := ⟨fun _ => (none, [("k", Value.vInt 1)])⟩

/-- Witness for C10 at a concrete record and `None`-returning hook. -/
theorem format_uses_inplace_mutation_witness :
    formatWith w10Hook tinyRecord = to_json [("k", Value.vInt 1)] :=
  format_uses_inplace_mutation w10Hook tinyRecord "m" _
    [("k", Value.vInt 1)] rfl rfl rfl

/-- C1: `format` never lets a failure escape: on every input it returns a
string, which is either the serialized record (from one of the two dumps
tiers), the empty-object literal, or the fixed fallback error record. -/
theorem format_never_raises (r : LogRecord) :
    (∃ jr : JsonRecord, format r = to_json jr ∧
      (dumpsDefault jr = .ok (to_json jr) ∨
       dumpsPlain jr = .ok (to_json jr) ∨
       to_json jr = "\x7b\x7d")) ∨
    (∃ e : PyError, format r = fallbackRecord e) := by
  unfold format formatWith
  cases hb : formatBodyWith defaultHook r with
  | error e => exact Or.inr ⟨e, rfl⟩
  | ok s =>
    left
    unfold formatBodyWith at hb
    cases hm : LogRecord.getMessage r with
    | error e => rw [hm] at hb; simp at hb
    | ok msg =>
      rw [hm] at hb
      dsimp only at hb
      cases hj : json_record msg (extra_from_record r) r with
      | error e => rw [hj] at hb; simp at hb
      | ok jr =>
        rw [hj] at hb
        simp [defaultHook] at hb
        exact ⟨mutate_json_record jr, by simp [hb], to_json_cases _⟩

/-- C4: `to_json` first tries `dumps` with `default=_json_serializable`
(which exposes an object's `__dict__` when it has one and its `str()`
otherwise), on a type/value/overflow error retries `dumps` without the
default hook, and when that also fails returns the literal empty-object
string. -/
theorem to_json_two_tier (jr : JsonRecord) :
    (∀ v d, objDict v = some d → _json_serializable v = .vDict d) ∧
    (∀ v, objDict v = none → _json_serializable v = .vStr (pyStr v)) ∧
    (∀ s, dumpsDefault jr = .ok s → to_json jr = s) ∧
    (∀ e s, dumpsDefault jr = .error e → dumpsPlain jr = .ok s →
      to_json jr = s) ∧
    (∀ e e', dumpsDefault jr = .error e → dumpsPlain jr = .error e' →
      to_json jr = "\x7b\x7d") := by
  refine ⟨?_, ?_, ?_, ?_, ?_⟩
  · intro v d h; simp [_json_serializable, h]
  · intro v h; simp [_json_serializable, h]
  · intro s h; simp [to_json, h]
  · intro e s h1 h2; simp [to_json, h1, h2]
  · intro e e' h1 h2; simp [to_json, h1, h2]

/-- Witness for C4: the record holding a self-referential container makes
both dumps tiers raise, and `to_json` returns the empty-object literal. -/
theorem to_json_two_tier_witness :
    to_json [("payload", Value.vCircular)] = "\x7b\x7d" :=
  (to_json_two_tier [("payload", Value.vCircular)]).2.2.2.2
    ⟨.valueError, "Circular reference detected"⟩
    ⟨.valueError, "Circular reference detected"⟩ rfl rfl

/-- Whether the first list is a leading segment of the second. -/
def leadsList : List Char → List Char → Bool
  | [], _ => true
  | _ :: _, [] => false
  | a :: as, b :: bs => a == b && leadsList as bs

/-- Whether `needle` occurs contiguously inside `hay`. -/
def hasSubstring (needle : List Char) : List Char → Bool
  | [] => leadsList needle []
  | c :: rest => leadsList needle (c :: rest) || hasSubstring needle rest

/-- C2 (failing evaluation): on the spec's own scenario event `format`
never assembles the required object — `json_record` reads the nonexistent
attribute `levelname_`, the `AttributeError` reaches the top-level
handler, and the output is the fixed fallback error record, containing
neither the `request_id` extra nor the rendered message. -/
theorem format_scenario_yields_fallback :
    format scenarioRecord =
      fallbackRecord (attributeErr "LogRecord" "levelname_") ∧
    hasSubstring "request_id".data (format scenarioRecord).data = false ∧
    hasSubstring "user alice logged in".data
      (format scenarioRecord).data = false :=
  ⟨rfl, rfl, rfl⟩

/-- C3 (failing evaluation): on an event holding a self-referential extra,
`format` does not return the empty-object literal: the `levelname_`
`AttributeError` fires before serialization is ever reached, and the
fallback error record comes back instead. -/
theorem format_circular_not_empty_object :
    format circularRecord =
      fallbackRecord (attributeErr "LogRecord" "levelname_") ∧
    format circularRecord ≠ "\x7b\x7d" := by
  refine ⟨rfl, ?_⟩
  decide

/-- C7 (failing evaluation): on an event whose `exc_info` is present,
the output of `format` carries no `exc_info` key: the `levelname_`
`AttributeError` fires before the key is inserted, and the fallback
record comes back. -/
theorem format_exc_event_lacks_exc_info :
    format excRecord =
      fallbackRecord (attributeErr "LogRecord" "levelname_") ∧
    hasSubstring "exc_info".data (format excRecord).data = false :=
  ⟨rfl, rfl⟩
